import Mathlib

/-!
Verification of the traffic-camera source-adapter and aggregation pipeline
(`fetch_all_cameras.py`).  The Python program is shallowly embedded: parsed
JSON values become the inductive `JVal`, the dynamic dictionary/list
operations of the adapters become `Except`-valued helpers that fail exactly
where the Python operation raises, and the orchestration loop of `main`
becomes a fold over the static source registry, parametrised by an
environment supplying the network fetch and the JSON parser.
-/

namespace CameraAgg

/-- A value produced by `json.loads`: null, booleans, numbers, strings,
arrays and objects.  Numbers are modelled as rationals; objects as
association lists with distinct keys (`json.loads` keeps one value per
key), in insertion order as Python dicts do. -/
inductive JVal where
  | null : JVal
  | jbool : Bool → JVal
  | jnum : ℚ → JVal
  | jstr : String → JVal
  | jarr : List JVal → JVal
  | jobj : List (String × JVal) → JVal
  deriving Repr, Inhabited

/-- Python truthiness (`if x:`): `None`, `False`, zero, the empty string and
empty containers are falsy, everything else truthy. -/
def jTruthy : JVal → Bool
  | .null => false
  | .jbool b => b
  | .jnum q => decide (q ≠ 0)
  | .jstr s => s ≠ ""
  | .jarr xs => !xs.isEmpty
  | .jobj kvs => !kvs.isEmpty

/-- Key lookup in an object's association list (keys are distinct). -/
def jlookup : List (String × JVal) → String → Option JVal
  | [], _ => none
  | (k, v) :: rest, key => if k = key then some v else jlookup rest key

/-- Python `d.get(key, default)`: the stored value (which may itself be
null) when the key is present, the default otherwise; raises
`AttributeError` when `d` is not a dict. -/
def pyGetD : JVal → String → JVal → Except String JVal
  | .jobj kvs, key, dflt => .ok ((jlookup kvs key).getD dflt)
  | _, _, _ => .error "AttributeError: object has no attribute get"

/-- Python `d.get(key)`: default `None`. -/
def pyGet (v : JVal) (key : String) : Except String JVal :=
  pyGetD v key .null

/-- Python `for x in v`: the elements iterated over — list elements, the
characters of a string, the keys of a dict; a `TypeError` otherwise. -/
def pyIter : JVal → Except String (List JVal)
  | .jarr xs => .ok xs
  | .jstr s => .ok (s.data.map fun c => .jstr (String.mk [c]))
  | .jobj kvs => .ok (kvs.map fun kv => .jstr kv.1)
  | _ => .error "TypeError: object is not iterable"

/-- Python `len(v)` for sized values; `TypeError` otherwise. -/
def pyLen : JVal → Except String Nat
  | .jarr xs => .ok xs.length
  | .jstr s => .ok s.length
  | .jobj kvs => .ok kvs.length
  | _ => .error "TypeError: object has no len"

/-- Python `v[i]` for a non-negative index, as used on the location pair
(`loc[0]`, `loc[1]`); a dict rejects an integer key (`KeyError`) and
non-subscriptable values raise, both modelled as errors. -/
def pyIndex : JVal → Nat → Except String JVal
  | .jarr xs, i =>
    match xs.get? i with
    | some v => .ok v
    | none => .error "IndexError: list index out of range"
  | .jstr s, i =>
    match s.data.get? i with
    | some c => .ok (.jstr (String.mk [c]))
    | none => .error "IndexError: string index out of range"
  | _, _ => .error "TypeError: object is not subscriptable"

/-- Python `str(v)` on parsed JSON scalars (the adapters apply it to camera
identifiers).  The numeric rendering delegates to `ℚ`'s, a simplification:
no verified property depends on the printed digits of a number. -/
def pyStr : JVal → String
  | .jstr s => s
  | .jnum q => toString q
  | .jbool true => "True"
  | .jbool false => "False"
  | .null => "None"
  | .jarr _ => "<list>"
  | .jobj _ => "<dict>"

/-- Python `v == "lit"` for a string literal: true exactly when `v` is that
string (no other JSON value compares equal to a string). -/
def pyEqStr : JVal → String → Bool
  | .jstr t, s => t = s
  | _, _ => false

/-- The digits of a decimal numeral as a natural number; `none` when the
list is empty or holds a non-digit. -/
def digitsToNat (cs : List Char) : Option Nat :=
  if cs.isEmpty then none
  else cs.foldlM (fun acc c => if c.isDigit then some (acc * 10 + (c.toNat - 48)) else none) 0

/-- Decimal literals `[+|-] digits [. digits]` as Python `float` reads them
(exponents and the special forms do not occur in these feeds and are
rejected); `none` mirrors `ValueError`. -/
def parseDecimal (s : String) : Option ℚ :=
  let core : List Char → Option ℚ := fun body =>
    match body.splitOn '.' with
    | [ds] => (digitsToNat ds).map (fun n => (n : ℚ))
    | [intPart, fracPart] =>
      if intPart.isEmpty && fracPart.isEmpty then none
      else do
        let i ← if intPart.isEmpty then some 0 else digitsToNat intPart
        let f ← if fracPart.isEmpty then some 0 else digitsToNat fracPart
        some ((i : ℚ) + (f : ℚ) / ((10 : ℚ) ^ fracPart.length))
    | _ => none
  match s.data with
  | '-' :: rest => (core rest).map (fun q => -q)
  | '+' :: rest => core rest
  | cs => core cs

/-- Python `float(v)`: numbers pass through, booleans become 0/1, strings
are parsed (`ValueError` on failure), everything else is a `TypeError`. -/
def pyFloat : JVal → Except String ℚ
  | .jnum q => .ok q
  | .jbool b => .ok (if b then 1 else 0)
  | .jstr s =>
    match parseDecimal s with
    | some q => .ok q
    | none => .error "ValueError: could not convert string to float"
  | _ => .error "TypeError: float argument must be a string or a number"

/-- A registry entry of `SOURCES`: the `jtype` field embeds the Python
dict's `"type"` key. -/
structure SourceDesc where
  id : String
  name : String
  state : String
  jtype : String
  url : String
  processor : String
  deriving Repr, DecidableEq

/-- One canonical camera record, as the dict literal each adapter builds:
an association list in the literal's key order. -/
abbrev CamRecord := List (String × JVal)

/-- The canonical record skeleton shared by the four adapters' dict
literals, with the ten keys in their common order. -/
def mkRecord (cameraId nm lat lon imageUrl streamUrl dir road status rawMeta : JVal) :
    CamRecord :=
  [("camera_id", cameraId), ("name", nm), ("latitude", lat), ("longitude", lon),
   ("image_url", imageUrl), ("stream_url", streamUrl), ("direction", dir),
   ("road", road), ("status", status), ("raw_metadata", rawMeta)]

/-- The canonical keys, in the order every adapter's dict literal lists
them. -/
def canonicalKeys : List String :=
  ["camera_id", "name", "latitude", "longitude", "image_url", "stream_url",
   "direction", "road", "status", "raw_metadata"]

/-- The `for`-loop each adapter runs: one output appended per item, the
first exception aborting the whole traversal (the partial list is
discarded at the `process_source` boundary, as in Python). -/
def mapExcept {α β : Type} (f : α → Except String β) : List α → Except String (List β)
  | [] => .ok []
  | x :: xs => do
    let y ← f x
    let ys ← mapExcept f xs
    pure (y :: ys)

/-- Loop body of `process_nyc_dot`: one camera dict of the top-level array
becomes one canonical record. -/
def nyc_dot_item (cam : JVal) : Except String CamRecord := do
  let cid ← pyGetD cam "id" (.jstr "")
  let nm ← pyGetD cam "name" (.jstr "")
  let lat ← pyGet cam "latitude"
  let lon ← pyGet cam "longitude"
  let imageUrl ← pyGetD cam "imageUrl" (.jstr "")
  let isOnline ← pyGet cam "isOnline"
  let area ← pyGetD cam "area" (.jstr "")
  pure (mkRecord cid nm lat lon imageUrl .null .null .null
    (.jstr (if pyEqStr isOnline "true" then "online" else "offline"))
    (.jobj [("area", area)]))

/-- `process_nyc_dot(data, source)`: iterate the top-level array and map
each entry 1:1. -/
def process_nyc_dot (data : JVal) (_source : SourceDesc) : Except String (List CamRecord) := do
  let items ← pyIter data
  mapExcept nyc_dot_item items

/-- `source["url"].rsplit("/map/", 1)[0]`: everything before the last
occurrence of `"/map/"`, the whole string when it does not occur. -/
def rsplitBase (url : String) : String :=
  let parts := url.splitOn "/map/"
  if parts.length ≤ 1 then url else String.intercalate "/map/" parts.dropLast

/-- Loop body of `process_511_system`.  The stream URL is Python's
`expando.get("videoUrl") or expando.get("VideoUrl") or cam.get("videoUrl")
or cam.get("VideoUrl")`: the first truthy operand, the last operand when
all are falsy.  (Python evaluates the `or` chain lazily, but here the later
`get` calls can only raise when the first one already has, so evaluating
them up front is equivalent.) -/
def process_511_item (baseUrl : String) (cam : JVal) : Except String CamRecord := do
  let loc ← pyGetD cam "location" (.jarr [])
  let expando ← pyGetD cam "expando" (.jobj [])
  let evu ← pyGet expando "videoUrl"
  let evU ← pyGet expando "VideoUrl"
  let cvu ← pyGet cam "videoUrl"
  let cvU ← pyGet cam "VideoUrl"
  let videoUrl := if jTruthy evu then evu else if jTruthy evU then evU
                  else if jTruthy cvu then cvu else cvU
  let itemId ← pyGetD cam "itemId" (.jstr "")
  let title ← pyGetD cam "title" (.jstr "")
  let locLen ← pyLen loc
  let lat ← (if locLen > 0 then pyIndex loc 0 else pure JVal.null)
  let lon ← (if locLen > 1 then pyIndex loc 1 else pure JVal.null)
  let videoEnabled ← pyGetD expando "videoEnabled" (.jbool false)
  pure (mkRecord (.jstr (pyStr itemId)) title lat lon
    (.jstr (baseUrl ++ "/map/Cameras/" ++ pyStr itemId))
    videoUrl .null .null (.jstr "online")
    (if jTruthy expando then .jobj [("videoEnabled", videoEnabled)] else .jobj []))

/-- `process_511_system(data, source)`: the cameras live in the envelope's
`item2` list; the image URL is synthesized from the source's own base
URL. -/
def process_511_system (data : JVal) (source : SourceDesc) :
    Except String (List CamRecord) := do
  let camList ← pyGetD data "item2" (.jarr [])
  let items ← pyIter camList
  mapExcept (process_511_item (rsplitBase source.url)) items

/-- Loop body of `process_caltrans`: `float(loc.get("latitude", 0)) if
loc.get("latitude") else None` — a truthiness check on the raw value gates
the float conversion, for both coordinates. -/
def process_caltrans_item (item : JVal) : Except String CamRecord := do
  let cam ← pyGetD item "cctv" (.jobj [])
  let loc ← pyGetD cam "location" (.jobj [])
  let img ← pyGetD cam "imageData" (.jobj [])
  let staticObj ← pyGetD img "static" (.jobj [])
  let index ← pyGetD cam "index" (.jstr "")
  let locName ← pyGetD loc "locationName" (.jstr "")
  let latRaw ← pyGet loc "latitude"
  let lat ← (if jTruthy latRaw then do
        let v ← pyGetD loc "latitude" (.jnum 0)
        let q ← pyFloat v
        pure (JVal.jnum q)
      else pure JVal.null)
  let lonRaw ← pyGet loc "longitude"
  let lon ← (if jTruthy lonRaw then do
        let v ← pyGetD loc "longitude" (.jnum 0)
        let q ← pyFloat v
        pure (JVal.jnum q)
      else pure JVal.null)
  let imageUrl ← pyGetD staticObj "currentImageURL" (.jstr "")
  let streamUrl ← pyGet img "streamingVideoURL"
  let dir ← pyGet loc "direction"
  let route ← pyGet loc "route"
  let inService ← pyGet cam "inService"
  let district ← pyGet loc "district"
  let county ← pyGet loc "county"
  let nearbyPlace ← pyGet loc "nearbyPlace"
  let elevation ← pyGet loc "elevation"
  let postmile ← pyGet loc "postmile"
  let milepost ← pyGet loc "milepost"
  pure (mkRecord index locName lat lon imageUrl streamUrl dir route
    (.jstr (if pyEqStr inService "true" then "online" else "offline"))
    (.jobj [("district", district), ("county", county), ("nearbyPlace", nearbyPlace),
            ("elevation", elevation), ("postmile", postmile), ("milepost", milepost)]))

/-- `process_caltrans(data, source)`: items live in the `data` array, each
holding a nested `cctv` object with `location` and `imageData`. -/
def process_caltrans (data : JVal) (_source : SourceDesc) :
    Except String (List CamRecord) := do
  let dataArr ← pyGetD data "data" (.jarr [])
  let items ← pyIter dataArr
  mapExcept process_caltrans_item items

/-- Loop body of `process_arcgis`: the id falls back from `OBJECTID` to
`feedID`, coordinates from `lat`/`long` attributes to geometry `y`/`x`
(a `get` call's default argument is evaluated first, as in Python). -/
def process_arcgis_item (feature : JVal) : Except String CamRecord := do
  let attrs ← pyGetD feature "attributes" (.jobj [])
  let geom ← pyGetD feature "geometry" (.jobj [])
  let fid ← pyGetD attrs "feedID" (.jstr "")
  let oid ← pyGetD attrs "OBJECTID" fid
  let nameDflt ← pyGetD attrs "name" (.jstr "")
  let nm ← pyGetD attrs "location" nameDflt
  let gy ← pyGet geom "y"
  let lat ← pyGetD attrs "lat" gy
  let gx ← pyGet geom "x"
  let lon ← pyGetD attrs "long" gx
  let url ← pyGetD attrs "url" (.jstr "")
  let county ← pyGet attrs "county"
  let feedID ← pyGet attrs "feedID"
  pure (mkRecord (.jstr (pyStr oid)) nm lat lon url .null .null .null
    (.jstr "online") (.jobj [("county", county), ("feedID", feedID)]))

/-- `process_arcgis(data, source)`: a GeoJSON-like `features` array of
`attributes`/`geometry` pairs. -/
def process_arcgis (data : JVal) (_source : SourceDesc) :
    Except String (List CamRecord) := do
  let features ← pyGetD data "features" (.jarr [])
  let items ← pyIter features
  mapExcept process_arcgis_item items

/-- An adapter: raw parsed JSON and the source descriptor to a sequence of
canonical records, or the exception the Python function would raise. -/
abbrev Adapter := JVal → SourceDesc → Except String (List CamRecord)

/-- The `PROCESSORS` strategy table: adapter kind to adapter; `none`
models `dict.get` returning `None` for an unknown kind. -/
def PROCESSORS : String → Option Adapter
  | "nyc_dot" => some process_nyc_dot
  | "511_system" => some process_511_system
  | "caltrans" => some process_caltrans
  | "arcgis" => some process_arcgis
  | _ => none

/-- The fixed `SOURCES` registry of fetchable sources, in file order. -/
def SOURCES : List SourceDesc := [
  ⟨"ny_nycdot", "NYC DOT", "NY", "City",
   "https://webcams.nyctmc.org/api/cameras", "nyc_dot"⟩,
  ⟨"ny_511ny", "511NY - New York State", "NY", "State",
   "https://511ny.org/map/mapIcons/Cameras", "511_system"⟩,
  ⟨"fl_fl511", "FL511", "FL", "State",
   "https://fl511.com/map/mapIcons/Cameras", "511_system"⟩,
  ⟨"ga_511ga", "Georgia 511", "GA", "State",
   "https://511ga.org/map/mapIcons/Cameras", "511_system"⟩,
  ⟨"az_az511", "Arizona 511", "AZ", "State",
   "https://az511.gov/map/mapIcons/Cameras", "511_system"⟩,
  ⟨"la_511la", "Louisiana 511", "LA", "State",
   "https://511la.org/map/mapIcons/Cameras", "511_system"⟩,
  ⟨"nv_nvroads", "Nevada Roads", "NV", "State",
   "https://nvroads.com/map/mapIcons/Cameras", "511_system"⟩,
  ⟨"ut_udot", "Utah DOT", "UT", "State",
   "https://udottraffic.utah.gov/map/mapIcons/Cameras", "511_system"⟩,
  ⟨"wi_511wi", "Wisconsin 511", "WI", "State",
   "https://511wi.gov/map/mapIcons/Cameras", "511_system"⟩,
  ⟨"pa_511pa", "Pennsylvania 511", "PA", "State",
   "https://511pa.com/map/mapIcons/Cameras", "511_system"⟩,
  ⟨"ct_cttravel", "Connecticut Travel", "CT", "State",
   "https://ctroads.org/map/mapIcons/Cameras", "511_system"⟩,
  ⟨"ne_newengland511", "New England 511 (ME/VT/NH)", "ME/VT/NH", "Regional",
   "https://newengland511.org/map/mapIcons/Cameras", "511_system"⟩,
  ⟨"id_511id", "Idaho 511", "ID", "State",
   "https://511.idaho.gov/map/mapIcons/Cameras", "511_system"⟩,
  ⟨"ak_511ak", "Alaska 511", "AK", "State",
   "http://511.alaska.gov/map/mapIcons/Cameras", "511_system"⟩,
  ⟨"ca_caltrans_d1", "Caltrans District 1", "CA", "State District",
   "https://cwwp2.dot.ca.gov/data/d1/cctv/cctvStatusD01.json", "caltrans"⟩,
  ⟨"ca_caltrans_d2", "Caltrans District 2", "CA", "State District",
   "https://cwwp2.dot.ca.gov/data/d2/cctv/cctvStatusD02.json", "caltrans"⟩,
  ⟨"ca_caltrans_d3", "Caltrans District 3", "CA", "State District",
   "https://cwwp2.dot.ca.gov/data/d3/cctv/cctvStatusD03.json", "caltrans"⟩,
  ⟨"ca_caltrans_d4", "Caltrans District 4 - Bay Area", "CA", "State District",
   "https://cwwp2.dot.ca.gov/data/d4/cctv/cctvStatusD04.json", "caltrans"⟩,
  ⟨"ca_caltrans_d5", "Caltrans District 5", "CA", "State District",
   "https://cwwp2.dot.ca.gov/data/d5/cctv/cctvStatusD05.json", "caltrans"⟩,
  ⟨"ca_caltrans_d6", "Caltrans District 6", "CA", "State District",
   "https://cwwp2.dot.ca.gov/data/d6/cctv/cctvStatusD06.json", "caltrans"⟩,
  ⟨"ca_caltrans_d7", "Caltrans District 7 - LA Metro", "CA", "State District",
   "https://cwwp2.dot.ca.gov/data/d7/cctv/cctvStatusD07.json", "caltrans"⟩,
  ⟨"ca_caltrans_d8", "Caltrans District 8", "CA", "State District",
   "https://cwwp2.dot.ca.gov/data/d8/cctv/cctvStatusD08.json", "caltrans"⟩,
  ⟨"ca_caltrans_d9", "Caltrans District 9", "CA", "State District",
   "https://cwwp2.dot.ca.gov/data/d9/cctv/cctvStatusD09.json", "caltrans"⟩,
  ⟨"ca_caltrans_d10", "Caltrans District 10", "CA", "State District",
   "https://cwwp2.dot.ca.gov/data/d10/cctv/cctvStatusD10.json", "caltrans"⟩,
  ⟨"ca_caltrans_d11", "Caltrans District 11 - San Diego", "CA", "State District",
   "https://cwwp2.dot.ca.gov/data/d11/cctv/cctvStatusD11.json", "caltrans"⟩,
  ⟨"ca_caltrans_d12", "Caltrans District 12", "CA", "State District",
   "https://cwwp2.dot.ca.gov/data/d12/cctv/cctvStatusD12.json", "caltrans"⟩,
  ⟨"md_chart", "Maryland CHART", "MD", "State",
   "https://mdgeodata.md.gov/imap/rest/services/Transportation/MD_TrafficCameras/MapServer/0/query?where=1%3D1&outFields=*&f=json", "arcgis"⟩]

/-- One `REQUIRES_AUTH` entry: documented, never fetched. -/
structure AuthSource where
  state : String
  name : String
  url : String
  notes : String
  deriving Repr, DecidableEq

/-- The `REQUIRES_AUTH` catalog, in file order. -/
def REQUIRES_AUTH : List AuthSource := [
  ⟨"CO", "Colorado COTRIP", "https://www.cotrip.org/api/graphql",
   "Uses GraphQL with specific queries, may require session"⟩,
  ⟨"OH", "Ohio OHGO", "https://publicapi.ohgo.com/api/v1/Cameras",
   "Requires API key - register at https://publicapi.ohgo.com"⟩,
  ⟨"IL", "Travel Midwest / Illinois Gateway", "https://travelmidwest.com/lmiga/",
   "Requires registration at https://travelmidwest.com/lmiga/registration.jsp"⟩,
  ⟨"VA", "Virginia 511", "https://www.511virginia.org/",
   "May require session/cookies from browser"⟩,
  ⟨"TN", "Tennessee SmartWay", "https://smartway.tn.gov/",
   "Angular app with protected API"⟩,
  ⟨"TX", "Texas DriveTexas", "https://drivetexas.org/",
   "API requires authentication"⟩,
  ⟨"MA", "Massachusetts 511", "https://mass511.com/",
   "Protected API, may need session"⟩,
  ⟨"MN", "Minnesota 511", "https://511mn.org/", "Protected API"⟩,
  ⟨"MI", "Michigan DOT", "https://mdotjboss.state.mi.us/", "Protected API"⟩,
  ⟨"NJ", "New Jersey 511", "https://www.511nj.org/",
   "Returns 403 - requires authentication"⟩]

/-- The run's environment: `fetch` is `fetch_url` (already exception-free —
`none` is a swallowed transport/status error), `parse` is `json.loads`,
`now` the UTC timestamp the run would take. -/
structure Env where
  fetch : String → Option String
  parse : String → Except String JVal
  now : String

/-- The dict `process_source` builds for a successful source. -/
structure SourceResult where
  source_id : String
  source_name : String
  source_url : String
  state : String
  jurisdiction_type : String
  last_fetched : String
  api_type : String
  camera_count : Nat
  cameras : List CamRecord
  deriving Repr

/-- The classified outcome of `process_source`: the constructor names the
one `FAILED (...)`/`OK` line the function prints; every failure returns
`None` to the caller. -/
inductive Outcome where
  | success (result : SourceResult)
  | fetchError
  | noCameras
  | procError (msg : String)
  deriving Repr

/-- The body of `process_source`'s `try` block: look the adapter up (no
exception), parse the text, then call the adapter — calling the `None` of
an unknown kind raises `TypeError` at the call site, after parsing. -/
def sourceBody (env : Env) (source : SourceDesc) (text : String) :
    Except String (List CamRecord) := do
  let processorOpt := PROCESSORS source.processor
  let data ← env.parse text
  let processor ← match processorOpt with
    | some p => pure p
    | none => Except.error "TypeError: NoneType object is not callable"
  processor data source

/-- `process_source(source)`: fetch, falsy text (`None` or empty) is a
fetch error; any exception out of parse or adapter is caught as a
processing error; an empty camera list is the soft `no cameras found`
failure; otherwise wrap with provenance into a result. -/
def process_source (env : Env) (source : SourceDesc) : Outcome :=
  match env.fetch source.url with
  | none => .fetchError
  | some text =>
    if text = "" then .fetchError
    else
      match sourceBody env source text with
      | .error e => .procError e
      | .ok cameras =>
        if cameras.isEmpty then .noCameras
        else .success
          { source_id := source.id
            source_name := source.name
            source_url := source.url
            state := source.state
            jurisdiction_type := source.jtype
            last_fetched := env.now
            api_type := "REST/JSON"
            camera_count := cameras.length
            cameras := cameras }

/-- What `main` sees of an outcome: the returned value, `none` for every
failure kind. -/
def outcomeResult : Outcome → Option SourceResult
  | .success r => some r
  | _ => none

/-- The accumulators of `main`'s loop: `results`, `failed`,
`total_cameras`. -/
structure RunState where
  results : List SourceResult
  failed : List String
  total_cameras : Nat
  deriving Repr

/-- One iteration of `main`'s loop over the registry. -/
def stepSource (env : Env) (st : RunState) (source : SourceDesc) : RunState :=
  match outcomeResult (process_source env source) with
  | some r =>
    { st with results := st.results ++ [r],
              total_cameras := st.total_cameras + r.camera_count }
  | none => { st with failed := st.failed ++ [source.name] }

/-- `main`'s loop: every registry entry processed once, in order, from
empty accumulators. -/
def runRegistry (env : Env) (registry : List SourceDesc) : RunState :=
  registry.foldl (stepSource env) ⟨[], [], 0⟩

/-- The `metadata` object of the aggregate report. -/
structure Metadata where
  generated_at : String
  total_cameras : Nat
  sources_processed : Nat
  sources_failed : Nat
  failed_sources : List String
  sources_requiring_auth : List String
  notes : String
  deriving Repr

/-- The aggregate report `main` writes: `metadata` plus the ordered
successful results. -/
structure Report where
  metadata : Metadata
  sources : List SourceResult
  deriving Repr

/-- The `output` dict `main` builds after the loop, over an arbitrary
registry. -/
def buildOutput (env : Env) (registry : List SourceDesc) : Report :=
  let st := runRegistry env registry
  { metadata :=
      { generated_at := env.now
        total_cameras := st.total_cameras
        sources_processed := st.results.length
        sources_failed := st.failed.length
        failed_sources := st.failed
        sources_requiring_auth := REQUIRES_AUTH.map (·.name)
        notes := "Some state DOTs require API keys or registration. See REQUIRES_AUTH in script for details." }
    sources := st.results }

/-- `main()` over the fixed registry. -/
def mainOutput (env : Env) : Report := buildOutput env SOURCES

/-- The successful results the run accumulates, in registry order. -/
def successesOf (env : Env) (registry : List SourceDesc) : List SourceResult :=
  registry.filterMap (fun s => outcomeResult (process_source env s))

/-- The failed source names the run accumulates, in registry order. -/
def failuresOf (env : Env) (registry : List SourceDesc) : List String :=
  (registry.filter (fun s => (outcomeResult (process_source env s)).isNone)).map (·.name)

/-! ### Helper lemmas -/

theorem except_bind_ok {α β : Type} {e : Except String α} {f : α → Except String β}
    {b : β} (h : (e >>= f) = .ok b) : ∃ a, e = .ok a ∧ f a = .ok b := by
  cases e with
  | error msg => simp [Bind.bind, Except.bind] at h
  | ok a => exact ⟨a, rfl, by simpa [Bind.bind, Except.bind] using h⟩

theorem mapExcept_ok_length {α β : Type} {f : α → Except String β} :
    ∀ {xs : List α} {ys : List β}, mapExcept f xs = .ok ys → ys.length = xs.length := by
  intro xs
  induction xs with
  | nil => intro ys h; simp only [mapExcept] at h; cases h; rfl
  | cons x xs ih =>
    intro ys h
    simp only [mapExcept] at h
    obtain ⟨y, _, h⟩ := except_bind_ok h
    obtain ⟨ys', hys', h⟩ := except_bind_ok h
    simp only [pure, Except.pure, Except.ok.injEq] at h
    subst h
    simp [ih hys']

theorem mapExcept_ok_mem {α β : Type} {f : α → Except String β} :
    ∀ {xs : List α} {ys : List β}, mapExcept f xs = .ok ys →
      ∀ y ∈ ys, ∃ x ∈ xs, f x = .ok y := by
  intro xs
  induction xs with
  | nil =>
    intro ys h y hy
    simp only [mapExcept] at h
    cases h; simp at hy
  | cons x xs ih =>
    intro ys h y hy
    simp only [mapExcept] at h
    obtain ⟨y₀, hy₀, h⟩ := except_bind_ok h
    obtain ⟨ys', hys', h⟩ := except_bind_ok h
    simp only [pure, Except.pure, Except.ok.injEq] at h
    subst h
    rcases List.mem_cons.mp hy with rfl | hmem
    · exact ⟨x, List.mem_cons_self x xs, hy₀⟩
    · obtain ⟨x', hx', hfx'⟩ := ih hys' y hmem
      exact ⟨x', List.mem_cons_of_mem x hx', hfx'⟩

theorem successesOf_cons_some (env : Env) (s : SourceDesc) (rest : List SourceDesc)
    (r : SourceResult) (h : outcomeResult (process_source env s) = some r) :
    successesOf env (s :: rest) = r :: successesOf env rest := by
  simp [successesOf, List.filterMap_cons, h]

theorem successesOf_cons_none (env : Env) (s : SourceDesc) (rest : List SourceDesc)
    (h : outcomeResult (process_source env s) = none) :
    successesOf env (s :: rest) = successesOf env rest := by
  simp [successesOf, List.filterMap_cons, h]

theorem failuresOf_cons_some (env : Env) (s : SourceDesc) (rest : List SourceDesc)
    (r : SourceResult) (h : outcomeResult (process_source env s) = some r) :
    failuresOf env (s :: rest) = failuresOf env rest := by
  simp [failuresOf, List.filter_cons, h]

theorem failuresOf_cons_none (env : Env) (s : SourceDesc) (rest : List SourceDesc)
    (h : outcomeResult (process_source env s) = none) :
    failuresOf env (s :: rest) = s.name :: failuresOf env rest := by
  simp [failuresOf, List.filter_cons, h]

/-- The loop of `main`, characterised: from any accumulator state, the
fold appends exactly the successful results (in registry order), exactly
the failed names (in registry order), and adds the camera counts of the
successes. -/
theorem foldl_stepSource_spec (env : Env) :
    ∀ (registry : List SourceDesc) (init : RunState),
      registry.foldl (stepSource env) init =
        { results := init.results ++ successesOf env registry,
          failed := init.failed ++ failuresOf env registry,
          total_cameras :=
            init.total_cameras + ((successesOf env registry).map (·.camera_count)).sum } := by
  intro registry
  induction registry with
  | nil => intro init; simp [successesOf, failuresOf]
  | cons s rest ih =>
    intro init
    rw [List.foldl_cons, ih]
    cases h : outcomeResult (process_source env s) with
    | some r =>
      rw [successesOf_cons_some env s rest r h, failuresOf_cons_some env s rest r h]
      simp [stepSource, h, Nat.add_assoc]
    | none =>
      rw [successesOf_cons_none env s rest h, failuresOf_cons_none env s rest h]
      simp [stepSource, h]

/-- `runRegistry`, characterised from the empty accumulators. -/
theorem runRegistry_spec (env : Env) (registry : List SourceDesc) :
    runRegistry env registry =
      { results := successesOf env registry,
        failed := failuresOf env registry,
        total_cameras := ((successesOf env registry).map (·.camera_count)).sum } := by
  simpa [runRegistry] using foldl_stepSource_spec env registry ⟨[], [], 0⟩

/-- Every registry entry ends in exactly one of the two accumulators. -/
theorem successes_failures_length (env : Env) (registry : List SourceDesc) :
    (successesOf env registry).length + (failuresOf env registry).length =
      registry.length := by
  induction registry with
  | nil => simp [successesOf, failuresOf]
  | cons s rest ih =>
    cases h : outcomeResult (process_source env s) with
    | some r =>
      rw [successesOf_cons_some env s rest r h, failuresOf_cons_some env s rest r h]
      simp only [List.length_cons]
      omega
    | none =>
      rw [successesOf_cons_none env s rest h, failuresOf_cons_none env s rest h]
      simp only [List.length_cons]
      omega

/-! ### Claim theorems -/

/-- C1: over every environment (every behaviour of the network and the
parser), the run completes and builds the aggregate report; its `sources`
list is exactly the successful outcome of processing each fetchable
registry entry once, in registry order, its failed-source list exactly the
names of the entries whose processing failed, in registry order — so no
source's failure aborts the run or escapes the source processor — and when
every source fails the report still exists, with `total_cameras = 0`. -/
theorem orchestrator_failure_isolation (env : Env) :
    (mainOutput env).sources = successesOf env SOURCES ∧
    (mainOutput env).metadata.failed_sources = failuresOf env SOURCES ∧
    ((∀ s ∈ SOURCES, outcomeResult (process_source env s) = none) →
      (mainOutput env).metadata.total_cameras = 0) := by
  have h := runRegistry_spec env SOURCES
  refine ⟨by simp [mainOutput, buildOutput, h], by simp [mainOutput, buildOutput, h], ?_⟩
  intro hall
  have hnil : successesOf env SOURCES = [] :=
    List.filterMap_eq_nil_iff.mpr hall
  simp [mainOutput, buildOutput, h, hnil]

/-- The registry's first entry, for concrete instantiations. -/
def nycSrc : SourceDesc :=
  ⟨"ny_nycdot", "NYC DOT", "NY", "City",
   "https://webcams.nyctmc.org/api/cameras", "nyc_dot"⟩

/-- A concrete environment: the NYC DOT endpoint answers with an empty
JSON array, every other endpoint fails. -/
def envEmptyArr : Env :=
  ⟨fun u => if u = nycSrc.url then some "[]" else none,
   fun t => if t = "[]" then .ok (.jarr []) else .error "json decode error",
   "2026-02-04T00:00:00+00:00"⟩

/-- C3: when fetch and parse succeed and the dispatched adapter returns an
empty camera sequence, `process_source` classifies the source as
`no cameras found` and returns null, and the orchestrator records the
source's name in the failed-sources list — the empty result never reaches
the aggregator as a success. -/
theorem empty_result_is_soft_failure (env : Env) (src : SourceDesc) (text : String)
    (data : JVal) (p : Adapter)
    (hfetch : env.fetch src.url = some text) (hne : text ≠ "")
    (hparse : env.parse text = .ok data)
    (hproc : PROCESSORS src.processor = some p)
    (hempty : p data src = .ok []) :
    process_source env src = .noCameras ∧
    outcomeResult (process_source env src) = none ∧
    (src ∈ SOURCES → src.name ∈ (mainOutput env).metadata.failed_sources) := by
  have hout : process_source env src = .noCameras := by
    simp [process_source, hfetch, hne, sourceBody, hproc, hparse, hempty,
      bind, Except.bind, pure, Except.pure]
  refine ⟨hout, by simp [hout, outcomeResult], ?_⟩
  intro hmem
  have h := runRegistry_spec env SOURCES
  have hfil : src ∈ SOURCES.filter
      (fun s => (outcomeResult (process_source env s)).isNone) :=
    List.mem_filter.mpr ⟨hmem, by simp [hout, outcomeResult]⟩
  have : src.name ∈ failuresOf env SOURCES := List.mem_map_of_mem _ hfil
  simpa [mainOutput, buildOutput, h] using this

/-- C3 witness: the NYC DOT source with an empty upstream array ends in the
failed list of the concrete run. -/
theorem empty_result_is_soft_failure_witness :
    envEmptyArr.fetch nycSrc.url = some "[]" ∧
    envEmptyArr.parse "[]" = .ok (.jarr []) ∧
    PROCESSORS nycSrc.processor = some process_nyc_dot ∧
    process_nyc_dot (.jarr []) nycSrc = .ok [] ∧
    process_source envEmptyArr nycSrc = .noCameras ∧
    nycSrc.name ∈ (mainOutput envEmptyArr).metadata.failed_sources := by
  have hm : nycSrc ∈ SOURCES := List.mem_cons_self _ _
  have h := empty_result_is_soft_failure envEmptyArr nycSrc "[]" (.jarr [])
    process_nyc_dot rfl (by decide) rfl rfl rfl
  exact ⟨rfl, rfl, rfl, rfl, h.1, h.2.2 hm⟩

/-- C2: in every report `main` builds, `metadata.total_cameras` is the sum
of `camera_count` over the report's `sources`, and `sources_processed`
plus `sources_failed` is the number of fetchable registry entries — each
entry counted in exactly one of the two. -/
theorem report_accounting (env : Env) :
    (mainOutput env).metadata.total_cameras =
      ((mainOutput env).sources.map (fun r => r.camera_count)).sum ∧
    (mainOutput env).metadata.sources_processed +
      (mainOutput env).metadata.sources_failed = SOURCES.length := by
  have h := runRegistry_spec env SOURCES
  constructor
  · simp [mainOutput, buildOutput, h]
  · simpa [mainOutput, buildOutput, h] using successes_failures_length env SOURCES

/-- A descriptor whose `processor` names no adapter in `PROCESSORS`. -/
def bogusSrc : SourceDesc :=
  ⟨"zz_bogus", "Bogus Source", "ZZ", "State", "https://example.org/cams", "sideways_json"⟩

/-- An environment where the bogus source's endpoint answers `{}`. -/
def envBogus : Env :=
  ⟨fun u => if u = bogusSrc.url then some "{}" else none,
   fun t => if t = "{}" then .ok (.jobj []) else .error "json decode error",
   "2026-02-04T00:00:00+00:00"⟩

/-- An environment with no network at all. -/
def envNoNet : Env :=
  ⟨fun _ => none, fun _ => .error "json decode error", "2026-02-04T00:00:00+00:00"⟩

/-- C4 counterexample: a descriptor with the unknown adapter kind
`sideways_json` is not rejected at startup.  Its URL is fetched — with the
network down the outcome is an ordinary per-source fetch error, so network
activity precedes any detection — and when fetch and parse succeed the
missing adapter surfaces as a caught per-source runtime processing
failure (`TypeError` from calling `None`), not a fatal configuration
error. -/
theorem unknown_adapter_kind_counterexample :
    PROCESSORS bogusSrc.processor = none ∧
    process_source envNoNet bogusSrc = .fetchError ∧
    process_source envBogus bogusSrc =
      .procError "TypeError: NoneType object is not callable" := by
  refine ⟨rfl, rfl, ?_⟩
  have hpn : PROCESSORS "sideways_json" = none := rfl
  simp [process_source, envBogus, bogusSrc, sourceBody, hpn,
    bind, Except.bind, pure, Except.pure]

/-- C4 amended: a SourceDescriptor whose adapter kind names no adapter in
the adapter table is not detected at startup; the source is fetched like
any other (a fetch failure is reported as such, before the configuration
problem is ever noticed), and on a successful fetch and parse the missing
adapter is handled as a per-source runtime processing failure, leaving the
rest of the run unaffected. -/
theorem unknown_adapter_kind_runtime (env : Env) (src : SourceDesc) (text : String)
    (data : JVal) (hnone : PROCESSORS src.processor = none) :
    (env.fetch src.url = none → process_source env src = .fetchError) ∧
    (env.fetch src.url = some text → text ≠ "" → env.parse text = .ok data →
      process_source env src = .procError "TypeError: NoneType object is not callable") := by
  constructor
  · intro hfetch
    simp [process_source, hfetch]
  · intro hfetch hne hparse
    simp [process_source, hfetch, hne, sourceBody, hnone, hparse,
      bind, Except.bind, pure, Except.pure]

/-- C4 witness: the amended behaviour at the concrete bogus descriptor. -/
theorem unknown_adapter_kind_runtime_witness :
    PROCESSORS bogusSrc.processor = none ∧
    process_source envNoNet bogusSrc = .fetchError ∧
    process_source envBogus bogusSrc =
      .procError "TypeError: NoneType object is not callable" :=
  ⟨rfl,
   (unknown_adapter_kind_runtime envNoNet bogusSrc "{}" (.jobj []) rfl).1 rfl,
   (unknown_adapter_kind_runtime envBogus bogusSrc "{}" (.jobj []) rfl).2 rfl
     (by decide) rfl⟩

/-- C5: stage-gated, first-failure-wins classification.  A fetch failure
is classified `fetch error` whatever the parser would have done — the
outcome is the same for every parse function, so no parsing is attempted —
and a successfully fetched body the parser rejects is classified as the
(parse/)processing error.  `process_source` returns a single `Outcome`
constructor, so exactly one classification is reported per source. -/
theorem stage_gated_classification (env : Env) (src : SourceDesc) :
    (env.fetch src.url = none →
      ∀ parse now, process_source ⟨env.fetch, parse, now⟩ src = .fetchError) ∧
    (∀ text e, env.fetch src.url = some text → text ≠ "" →
      env.parse text = .error e → process_source env src = .procError e) := by
  constructor
  · intro hfetch parse now
    simp [process_source, hfetch]
  · intro text e hfetch hne hparse
    simp [process_source, hfetch, hne, sourceBody, hparse, bind, Except.bind]

theorem mkRecord_keys (a b c d e f g h i j : JVal) :
    (mkRecord a b c d e f g h i j).map Prod.fst = canonicalKeys := rfl

theorem nyc_dot_item_keys {cam : JVal} {r : CamRecord}
    (h : nyc_dot_item cam = .ok r) : r.map Prod.fst = canonicalKeys := by
  simp only [nyc_dot_item] at h
  repeat obtain ⟨_, -, h⟩ := except_bind_ok h
  simp only [pure, Except.pure, Except.ok.injEq] at h
  subst h
  rfl

theorem process_511_item_keys {baseUrl : String} {cam : JVal} {r : CamRecord}
    (h : process_511_item baseUrl cam = .ok r) : r.map Prod.fst = canonicalKeys := by
  simp only [process_511_item] at h
  repeat obtain ⟨_, -, h⟩ := except_bind_ok h
  simp only [pure, Except.pure, Except.ok.injEq] at h
  subst h
  rfl

theorem process_caltrans_item_keys {item : JVal} {r : CamRecord}
    (h : process_caltrans_item item = .ok r) : r.map Prod.fst = canonicalKeys := by
  simp only [process_caltrans_item] at h
  repeat obtain ⟨_, -, h⟩ := except_bind_ok h
  simp only [pure, Except.pure, Except.ok.injEq] at h
  subst h
  rfl

theorem process_arcgis_item_keys {feature : JVal} {r : CamRecord}
    (h : process_arcgis_item feature = .ok r) : r.map Prod.fst = canonicalKeys := by
  simp only [process_arcgis_item] at h
  repeat obtain ⟨_, -, h⟩ := except_bind_ok h
  simp only [pure, Except.pure, Except.ok.injEq] at h
  subst h
  rfl

/-- C6: every record any of the four registered adapters outputs carries
exactly the canonical keys — `camera_id`, `name`, `latitude`, `longitude`,
`image_url`, `stream_url`, `direction`, `road`, `status`, `raw_metadata` —
each present with a value or explicit null, in the canonical order; no
adapter output record omits a key. -/
theorem adapter_records_canonical_keys (kind : String) (p : Adapter)
    (hp : PROCESSORS kind = some p) (data : JVal) (src : SourceDesc)
    (recs : List CamRecord) (hok : p data src = .ok recs) :
    ∀ r ∈ recs, r.map Prod.fst = canonicalKeys := by
  intro r hr
  unfold PROCESSORS at hp
  split at hp <;> cases hp
  case _ =>
    simp only [process_nyc_dot] at hok
    obtain ⟨items, -, hok⟩ := except_bind_ok hok
    obtain ⟨x, -, hx⟩ := mapExcept_ok_mem hok r hr
    exact nyc_dot_item_keys hx
  case _ =>
    simp only [process_511_system] at hok
    obtain ⟨camList, -, hok⟩ := except_bind_ok hok
    obtain ⟨items, -, hok⟩ := except_bind_ok hok
    obtain ⟨x, -, hx⟩ := mapExcept_ok_mem hok r hr
    exact process_511_item_keys hx
  case _ =>
    simp only [process_caltrans] at hok
    obtain ⟨dataArr, -, hok⟩ := except_bind_ok hok
    obtain ⟨items, -, hok⟩ := except_bind_ok hok
    obtain ⟨x, -, hx⟩ := mapExcept_ok_mem hok r hr
    exact process_caltrans_item_keys hx
  case _ =>
    simp only [process_arcgis] at hok
    obtain ⟨features, -, hok⟩ := except_bind_ok hok
    obtain ⟨items, -, hok⟩ := except_bind_ok hok
    obtain ⟨x, -, hx⟩ := mapExcept_ok_mem hok r hr
    exact process_arcgis_item_keys hx

/-- The record `process_nyc_dot` builds for a camera dict with no fields. -/
def nycEmptyRec : CamRecord :=
  mkRecord (.jstr "") (.jstr "") .null .null (.jstr "") .null .null .null
    (.jstr "offline") (.jobj [("area", .jstr "")])

/-- C6 witness: the invariant at a concrete adapter run. -/
theorem adapter_records_canonical_keys_witness :
    PROCESSORS "nyc_dot" = some process_nyc_dot ∧
    process_nyc_dot (.jarr [.jobj []]) nycSrc = .ok [nycEmptyRec] ∧
    nycEmptyRec.map Prod.fst = canonicalKeys :=
  ⟨rfl, rfl,
   adapter_records_canonical_keys "nyc_dot" process_nyc_dot rfl (.jarr [.jobj []])
     nycSrc [nycEmptyRec] rfl nycEmptyRec (by simp)⟩

/-- C7: each adapter emits exactly one record per entry of its input
collection — the top-level array, the `item2` list, the `data` array and
the `features` array respectively.  Whenever the adapter completes, every
entry was well-formed enough to process and contributed exactly one
record; fields an entry lacks are nulled or defaulted inside that record
(C6, C8) rather than dropping it. -/
theorem adapter_output_length :
    (∀ (entries : List JVal) (src : SourceDesc) (recs : List CamRecord),
      process_nyc_dot (.jarr entries) src = .ok recs →
      recs.length = entries.length) ∧
    (∀ (data : JVal) (entries : List JVal) (src : SourceDesc) (recs : List CamRecord),
      pyGetD data "item2" (.jarr []) = .ok (.jarr entries) →
      process_511_system data src = .ok recs →
      recs.length = entries.length) ∧
    (∀ (data : JVal) (entries : List JVal) (src : SourceDesc) (recs : List CamRecord),
      pyGetD data "data" (.jarr []) = .ok (.jarr entries) →
      process_caltrans data src = .ok recs →
      recs.length = entries.length) ∧
    (∀ (data : JVal) (entries : List JVal) (src : SourceDesc) (recs : List CamRecord),
      pyGetD data "features" (.jarr []) = .ok (.jarr entries) →
      process_arcgis data src = .ok recs →
      recs.length = entries.length) := by
  refine ⟨?_, ?_, ?_, ?_⟩
  · intro entries src recs hok
    simp only [process_nyc_dot] at hok
    obtain ⟨items, hitems, hok⟩ := except_bind_ok hok
    simp only [pyIter, Except.ok.injEq] at hitems
    subst hitems
    exact mapExcept_ok_length hok
  · intro data entries src recs hget hok
    simp only [process_511_system] at hok
    obtain ⟨camList, hcl, hok⟩ := except_bind_ok hok
    rw [hget] at hcl
    injection hcl with hcl
    subst hcl
    obtain ⟨items, hitems, hok⟩ := except_bind_ok hok
    simp only [pyIter, Except.ok.injEq] at hitems
    subst hitems
    exact mapExcept_ok_length hok
  · intro data entries src recs hget hok
    simp only [process_caltrans] at hok
    obtain ⟨dataArr, hda, hok⟩ := except_bind_ok hok
    rw [hget] at hda
    injection hda with hda
    subst hda
    obtain ⟨items, hitems, hok⟩ := except_bind_ok hok
    simp only [pyIter, Except.ok.injEq] at hitems
    subst hitems
    exact mapExcept_ok_length hok
  · intro data entries src recs hget hok
    simp only [process_arcgis] at hok
    obtain ⟨features, hf, hok⟩ := except_bind_ok hok
    rw [hget] at hf
    injection hf with hf
    subst hf
    obtain ⟨items, hitems, hok⟩ := except_bind_ok hok
    simp only [pyIter, Except.ok.injEq] at hitems
    subst hitems
    exact mapExcept_ok_length hok

/-- The Caltrans District 7 registry entry, for concrete instantiations. -/
def calSrc : SourceDesc :=
  ⟨"ca_caltrans_d7", "Caltrans District 7 - LA Metro", "CA", "State District",
   "https://cwwp2.dot.ca.gov/data/d7/cctv/cctvStatusD07.json", "caltrans"⟩

/-- A minimal Caltrans payload: one item whose location carries only the
given latitude value. -/
def calInput (latv : JVal) : JVal :=
  .jobj [("data", .jarr
    [.jobj [("cctv", .jobj [("location", .jobj [("latitude", latv)])])]])]

/-- The rational `parseDecimal` builds for the string `"34.05"`, spelled
exactly as the parser assembles it. -/
def q3405 : ℚ := ((34 : ℕ) : ℚ) + ((5 : ℕ) : ℚ) / ((10 : ℚ) ^ 2)

/-- C8: in the Caltrans-style adapter an empty latitude string yields a
null latitude — never `0.0` — while `"34.05"` yields the number `34.05`
and `"0"` yields the number `0.0`: the truthiness (empty-string) check
gates the float conversion, so the string `"0"` is distinguished from an
absent value. -/
theorem caltrans_latitude_parsing :
    (process_caltrans (calInput (.jstr "")) calSrc).map
        (fun recs => recs.map (fun r => jlookup r "latitude")) =
      .ok [some JVal.null] ∧
    (process_caltrans (calInput (.jstr "34.05")) calSrc).map
        (fun recs => recs.map (fun r => jlookup r "latitude")) =
      .ok [some (.jnum (34.05 : ℚ))] ∧
    (process_caltrans (calInput (.jstr "0")) calSrc).map
        (fun recs => recs.map (fun r => jlookup r "latitude")) =
      .ok [some (.jnum 0)] := by
  refine ⟨rfl, ?_, rfl⟩
  have h1 : (process_caltrans (calInput (.jstr "34.05")) calSrc).map
      (fun recs => recs.map (fun r => jlookup r "latitude")) =
      .ok [some (.jnum q3405)] := rfl
  have h2 : q3405 = (34.05 : ℚ) := by norm_num [q3405]
  rw [h1, h2]

/-- The one Caltrans item whose location carries the native number zero as
latitude and the empty string as longitude — both present, both falsy. -/
def calItem00 : JVal :=
  .jobj [("cctv", .jobj [("location",
    .jobj [("latitude", .jnum 0), ("longitude", .jstr "")])])]

/-- The record `process_caltrans_item` builds for `calItem00`. -/
def calFalsyRec : CamRecord :=
  mkRecord (.jstr "") (.jstr "") .null .null (.jstr "") .null .null .null
    (.jstr "offline")
    (.jobj [("district", .null), ("county", .null), ("nearbyPlace", .null),
            ("elevation", .null), ("postmile", .null), ("milepost", .null)])

/-- C10: the Caltrans coordinate guard is Python truthiness on the raw
value, for both coordinates: whenever the location's latitude is falsy the
output latitude is null, whenever its longitude is falsy the output
longitude is null — and the native number 0, null and the empty string
are all falsy — so a genuine numeric-zero coordinate is mapped to absent,
not to 0.0. -/
theorem caltrans_falsy_coordinate_is_null (item cam loc latv lonv : JVal)
    (r : CamRecord)
    (hcam : pyGetD item "cctv" (.jobj []) = .ok cam)
    (hloc : pyGetD cam "location" (.jobj []) = .ok loc)
    (hlat : pyGet loc "latitude" = .ok latv)
    (hlon : pyGet loc "longitude" = .ok lonv)
    (hr : process_caltrans_item item = .ok r) :
    (jTruthy latv = false → jlookup r "latitude" = some JVal.null) ∧
    (jTruthy lonv = false → jlookup r "longitude" = some JVal.null) ∧
    jTruthy (JVal.jnum 0) = false ∧ jTruthy JVal.null = false ∧
    jTruthy (JVal.jstr "") = false := by
  refine ⟨?_, ?_, by decide, rfl, by decide⟩
  · intro hfalsy
    simp only [process_caltrans_item] at hr
    obtain ⟨cam', h1, hr⟩ := except_bind_ok hr
    rw [hcam] at h1; injection h1 with h1; subst h1
    obtain ⟨loc', h2, hr⟩ := except_bind_ok hr
    rw [hloc] at h2; injection h2 with h2; subst h2
    obtain ⟨img', -, hr⟩ := except_bind_ok hr
    obtain ⟨st', -, hr⟩ := except_bind_ok hr
    obtain ⟨idx', -, hr⟩ := except_bind_ok hr
    obtain ⟨nm', -, hr⟩ := except_bind_ok hr
    obtain ⟨latRaw', h3, hr⟩ := except_bind_ok hr
    rw [hlat] at h3; injection h3 with h3; subst h3
    simp only [hfalsy, Bool.false_eq_true, if_false] at hr
    obtain ⟨lat', h4, hr⟩ := except_bind_ok hr
    simp only [pure, Except.pure, Except.ok.injEq] at h4
    subst h4
    obtain ⟨_, -, hr⟩ := except_bind_ok hr
    obtain ⟨_, -, hr⟩ := except_bind_ok hr
    obtain ⟨_, -, hr⟩ := except_bind_ok hr
    obtain ⟨_, -, hr⟩ := except_bind_ok hr
    obtain ⟨_, -, hr⟩ := except_bind_ok hr
    obtain ⟨_, -, hr⟩ := except_bind_ok hr
    obtain ⟨_, -, hr⟩ := except_bind_ok hr
    obtain ⟨_, -, hr⟩ := except_bind_ok hr
    obtain ⟨_, -, hr⟩ := except_bind_ok hr
    obtain ⟨_, -, hr⟩ := except_bind_ok hr
    obtain ⟨_, -, hr⟩ := except_bind_ok hr
    obtain ⟨_, -, hr⟩ := except_bind_ok hr
    obtain ⟨_, -, hr⟩ := except_bind_ok hr
    simp only [pure, Except.pure, Except.ok.injEq] at hr
    subst hr
    rfl
  · intro hfalsy
    simp only [process_caltrans_item] at hr
    obtain ⟨cam', h1, hr⟩ := except_bind_ok hr
    rw [hcam] at h1; injection h1 with h1; subst h1
    obtain ⟨loc', h2, hr⟩ := except_bind_ok hr
    rw [hloc] at h2; injection h2 with h2; subst h2
    obtain ⟨img', -, hr⟩ := except_bind_ok hr
    obtain ⟨st', -, hr⟩ := except_bind_ok hr
    obtain ⟨idx', -, hr⟩ := except_bind_ok hr
    obtain ⟨nm', -, hr⟩ := except_bind_ok hr
    obtain ⟨latRaw', -, hr⟩ := except_bind_ok hr
    obtain ⟨lat', -, hr⟩ := except_bind_ok hr
    obtain ⟨lonRaw', h3, hr⟩ := except_bind_ok hr
    rw [hlon] at h3; injection h3 with h3; subst h3
    simp only [hfalsy, Bool.false_eq_true, if_false] at hr
    obtain ⟨lon', h4, hr⟩ := except_bind_ok hr
    simp only [pure, Except.pure, Except.ok.injEq] at h4
    subst h4
    obtain ⟨_, -, hr⟩ := except_bind_ok hr
    obtain ⟨_, -, hr⟩ := except_bind_ok hr
    obtain ⟨_, -, hr⟩ := except_bind_ok hr
    obtain ⟨_, -, hr⟩ := except_bind_ok hr
    obtain ⟨_, -, hr⟩ := except_bind_ok hr
    obtain ⟨_, -, hr⟩ := except_bind_ok hr
    obtain ⟨_, -, hr⟩ := except_bind_ok hr
    obtain ⟨_, -, hr⟩ := except_bind_ok hr
    obtain ⟨_, -, hr⟩ := except_bind_ok hr
    obtain ⟨_, -, hr⟩ := except_bind_ok hr
    obtain ⟨_, -, hr⟩ := except_bind_ok hr
    simp only [pure, Except.pure, Except.ok.injEq] at hr
    subst hr
    rfl

/-- C10 witness: the native number 0 as latitude and the empty string as
longitude both map to null in the output record. -/
theorem caltrans_falsy_coordinate_is_null_witness :
    pyGetD calItem00 "cctv" (.jobj []) =
      .ok (.jobj [("location",
        .jobj [("latitude", .jnum 0), ("longitude", .jstr "")])]) ∧
    pyGetD (.jobj [("location",
        .jobj [("latitude", .jnum 0), ("longitude", .jstr "")])]) "location"
        (.jobj []) =
      .ok (.jobj [("latitude", .jnum 0), ("longitude", .jstr "")]) ∧
    pyGet (.jobj [("latitude", .jnum 0), ("longitude", .jstr "")]) "latitude" =
      .ok (.jnum 0) ∧
    pyGet (.jobj [("latitude", .jnum 0), ("longitude", .jstr "")]) "longitude" =
      .ok (.jstr "") ∧
    jTruthy (JVal.jnum 0) = false ∧ jTruthy (JVal.jstr "") = false ∧
    process_caltrans_item calItem00 = .ok calFalsyRec ∧
    jlookup calFalsyRec "latitude" = some JVal.null ∧
    jlookup calFalsyRec "longitude" = some JVal.null := by
  refine ⟨rfl, rfl, rfl, rfl, by decide, by decide, rfl, ?_, ?_⟩
  · exact (caltrans_falsy_coordinate_is_null calItem00
      (.jobj [("location", .jobj [("latitude", .jnum 0), ("longitude", .jstr "")])])
      (.jobj [("latitude", .jnum 0), ("longitude", .jstr "")])
      (.jnum 0) (.jstr "") calFalsyRec
      rfl rfl rfl rfl rfl).1 (by decide)
  · exact (caltrans_falsy_coordinate_is_null calItem00
      (.jobj [("location", .jobj [("latitude", .jnum 0), ("longitude", .jstr "")])])
      (.jobj [("latitude", .jnum 0), ("longitude", .jstr "")])
      (.jnum 0) (.jstr "") calFalsyRec
      rfl rfl rfl rfl rfl).2.1 (by decide)

/-- The 511 camera item of the C9 counterexample: the item itself carries
`videoUrl = "itemU"`, its expando carries `videoUrl = ""` (non-null) and
`VideoUrl = "expU"`. -/
def cam511cex : JVal :=
  .jobj [("itemId", .jnum 7), ("title", .jstr "t"),
         ("location", .jarr [.jnum 1, .jnum 2]), ("videoUrl", .jstr "itemU"),
         ("expando", .jobj [("videoUrl", .jstr ""), ("VideoUrl", .jstr "expU")])]

/-- The record `process_511_item` builds for `cam511cex`. -/
def cexRec511 : CamRecord :=
  mkRecord (.jstr "7") (.jstr "t") (.jnum 1) (.jnum 2)
    (.jstr "https://511ny.org/map/Cameras/7") (.jstr "expU") .null .null
    (.jstr "online") (.jobj [("videoEnabled", .jbool false)])

/-- C9 counterexample: the camera item carries the non-null, item-level
`videoUrl = "itemU"`, yet the adapter's stream_url is the expando-level
`"expU"` — the expando is consulted first (not the item), and the
expando's non-null `videoUrl = ""` is skipped for being falsy rather than
selected as the first non-null value. -/
theorem stream_url_preference_counterexample :
    pyGet cam511cex "videoUrl" = .ok (.jstr "itemU") ∧
    process_511_item "https://511ny.org" cam511cex = .ok cexRec511 ∧
    jlookup cexRec511 "stream_url" = some (.jstr "expU") ∧
    (JVal.jstr "expU" = JVal.jstr "itemU" → False) := by
  refine ⟨rfl, rfl, rfl, ?_⟩
  intro h
  injection h with h
  exact absurd h (by decide)

/-- C9 amended: the 511-style adapter resolves stream_url by checking the
`videoUrl`/`VideoUrl` casings on the nested expando object first and then
on the camera item itself — preferring the expando-level fields — and
takes the first truthy value in that order (Python `or`), so a non-null
but empty string is skipped; when every candidate is falsy the last one,
the item-level `VideoUrl` lookup, is used. -/
theorem stream_url_expando_preference (baseUrl : String)
    (cam expando evu evU cvu cvU : JVal) (r : CamRecord)
    (hexp : pyGetD cam "expando" (.jobj []) = .ok expando)
    (h1 : pyGet expando "videoUrl" = .ok evu)
    (h2 : pyGet expando "VideoUrl" = .ok evU)
    (h3 : pyGet cam "videoUrl" = .ok cvu)
    (h4 : pyGet cam "VideoUrl" = .ok cvU)
    (hr : process_511_item baseUrl cam = .ok r) :
    jlookup r "stream_url" =
      some (if jTruthy evu then evu else if jTruthy evU then evU
            else if jTruthy cvu then cvu else cvU) := by
  simp only [process_511_item] at hr
  obtain ⟨loc', -, hr⟩ := except_bind_ok hr
  obtain ⟨exp', he, hr⟩ := except_bind_ok hr
  rw [hexp] at he; injection he with he; subst he
  obtain ⟨evu', he1, hr⟩ := except_bind_ok hr
  rw [h1] at he1; injection he1 with he1; subst he1
  obtain ⟨evU', he2, hr⟩ := except_bind_ok hr
  rw [h2] at he2; injection he2 with he2; subst he2
  obtain ⟨cvu', he3, hr⟩ := except_bind_ok hr
  rw [h3] at he3; injection he3 with he3; subst he3
  obtain ⟨cvU', he4, hr⟩ := except_bind_ok hr
  rw [h4] at he4; injection he4 with he4; subst he4
  obtain ⟨itemId', -, hr⟩ := except_bind_ok hr
  obtain ⟨title', -, hr⟩ := except_bind_ok hr
  obtain ⟨locLen', -, hr⟩ := except_bind_ok hr
  obtain ⟨lat', -, hr⟩ := except_bind_ok hr
  obtain ⟨lon', -, hr⟩ := except_bind_ok hr
  obtain ⟨ve', -, hr⟩ := except_bind_ok hr
  simp only [pure, Except.pure, Except.ok.injEq] at hr
  subst hr
  rfl

/-- C9 witness: the amended resolution order at the concrete item. -/
theorem stream_url_expando_preference_witness :
    pyGetD cam511cex "expando" (.jobj []) =
      .ok (.jobj [("videoUrl", .jstr ""), ("VideoUrl", .jstr "expU")]) ∧
    pyGet (.jobj [("videoUrl", .jstr ""), ("VideoUrl", .jstr "expU")]) "videoUrl" =
      .ok (.jstr "") ∧
    pyGet (.jobj [("videoUrl", .jstr ""), ("VideoUrl", .jstr "expU")]) "VideoUrl" =
      .ok (.jstr "expU") ∧
    pyGet cam511cex "videoUrl" = .ok (.jstr "itemU") ∧
    pyGet cam511cex "VideoUrl" = .ok JVal.null ∧
    process_511_item "https://511ny.org" cam511cex = .ok cexRec511 ∧
    jlookup cexRec511 "stream_url" = some (.jstr "expU") := by
  refine ⟨rfl, rfl, rfl, rfl, rfl, rfl, ?_⟩
  exact stream_url_expando_preference "https://511ny.org" cam511cex
    (.jobj [("videoUrl", .jstr ""), ("VideoUrl", .jstr "expU")])
    (.jstr "") (.jstr "expU") (.jstr "itemU") JVal.null cexRec511
    rfl rfl rfl rfl rfl rfl

end CameraAgg
